import Mathlib

/-!
Verification of the control-props toggle hook (src/src/exercise/06.js).

The file shallowly embeds the state-ownership-arbitration logic of the
hook: the pure transition function `toggleReducer`, the per-render
arbiter (`dispatchWithOnChange`, the reported `on` value), and the two
development-time advisory hooks (`useControlledSwitchWarning`,
`useReadOnlyWarning`).  JS `undefined`/`null` values are modeled with
`Option`; a thrown `Error` is `Except.error`.
-/

/-- A state object of the hook.  The source always builds states whose only
field is the boolean `on` (`initialState = on: initialOn`), but JS objects
are open and the source itself spreads extra fields (`...state`), so the
model carries the remaining fields as an association list. -/
structure ToggleState where
  «on» : Bool
  extra : List (String × Nat)
deriving Repr, DecidableEq

/-- actionTypes.toggle from the source's actionTypes object. -/
def actionTypes.toggle : String := "toggle"

/-- actionTypes.reset from the source's actionTypes object. -/
def actionTypes.reset : String := "reset"

/-- An action (intent) dispatched to the reducer: a type tag plus the
optional `initialState` payload (absent, i.e. JS `undefined`, on toggle
actions). -/
structure ToggleAction where
  type : String
  initialState : Option ToggleState
deriving Repr, DecidableEq

/-- toggleReducer from the source.  The state argument is `Option` because a
JS variable can hold `undefined`: reading `.on` of `undefined` in the toggle
branch is a TypeError; the reset branch returns the action's `initialState`
verbatim without reading the state.  An unrecognized type throws. -/
def toggleReducer (state : Option ToggleState) (a : ToggleAction) :
    Except String (Option ToggleState) :=
  if a.type = actionTypes.toggle then
    match state with
    | some s => Except.ok (some ⟨!s.«on», []⟩)
    | none => Except.error "TypeError: cannot read properties of undefined"
  else if a.type = actionTypes.reset then
    Except.ok a.initialState
  else
    Except.error ("Unsupported type: " ++ a.type)

/-- The action dispatched by `toggle()`: `type: actionTypes.toggle` and no
payload. -/
def toggleAction : ToggleAction := ⟨actionTypes.toggle, none⟩

/-- The action dispatched by `reset()`: `type: actionTypes.reset` with the
captured initial state as payload. -/
def resetAction (init : ToggleState) : ToggleAction := ⟨actionTypes.reset, some init⟩

/-- One hook instance at one render: the `useRef`-captured initial state,
the `useReducer` internal state (the standby store), and the props read by
the arbiter.  `controlledOn = none` models the `on` prop being absent or
null (self-owned mode); `hasOnChange` models `!!onChange`. -/
structure ToggleInstance where
  initialState : ToggleState
  state : Option ToggleState
  controlledOn : Option Bool
  hasOnChange : Bool
  readOnly : Bool
deriving Repr, DecidableEq

/-- onIsControlled from the source: `controlledOn != null`. -/
def ToggleInstance.onIsControlled (i : ToggleInstance) : Bool :=
  i.controlledOn.isSome

/-- The reported value: `const on = onIsControlled ? controlledOn : state.on`.
The ternary only evaluates the taken branch, so an undefined internal state
only faults in self-owned mode. -/
def ToggleInstance.reportedOn (i : ToggleInstance) : Except String Bool :=
  match i.controlledOn with
  | some b => Except.ok b
  | none =>
    match i.state with
    | some s => Except.ok s.«on»
    | none => Except.error "TypeError: cannot read properties of undefined"

/-- The spread `...state, on`: all fields of `state` with `on` overridden.
Spreading `undefined` contributes no fields. -/
def spreadOn (state : Option ToggleState) (b : Bool) : ToggleState :=
  match state with
  | some s => ⟨b, s.extra⟩
  | none => ⟨b, []⟩

/-- dispatchWithOnChange from the source, for one action: if the instance is
not externally owned, run the reducer on the internal state and commit the
result (React defers the reducer run inside `dispatch` to the next render;
the model runs it immediately, which yields the same committed state and
observer calls); then, if an observer is registered, call it with
`(reducer(...state, on, action), action)` — `onChange?.` short-circuits,
so with no observer the arguments are never evaluated.  Returns the
committed internal state and the list of observer invocations. -/
def dispatchWithOnChange
    (reducer : Option ToggleState → ToggleAction → Except String (Option ToggleState))
    (i : ToggleInstance) (action : ToggleAction) :
    Except String (Option ToggleState × List (Option ToggleState × ToggleAction)) := do
  let newState ← if i.onIsControlled then pure i.state else reducer i.state action
  let calls ←
    if i.hasOnChange then do
      let b ← i.reportedOn
      let suggested ← reducer (some (spreadOn i.state b)) action
      pure [(suggested, action)]
    else
      pure []
  pure (newState, calls)

/-- The `toggle()` operation: dispatch the toggle action and commit the new
internal state into the instance. -/
def ToggleInstance.toggle (i : ToggleInstance) :
    Except String (ToggleInstance × List (Option ToggleState × ToggleAction)) :=
  (dispatchWithOnChange toggleReducer i toggleAction).map
    (fun p => ({ i with state := p.1 }, p.2))

/-- The `reset()` operation: dispatch the reset action carrying the captured
initial state and commit the new internal state into the instance. -/
def ToggleInstance.reset (i : ToggleInstance) :
    Except String (ToggleInstance × List (Option ToggleState × ToggleAction)) :=
  (dispatchWithOnChange toggleReducer i (resetAction i.initialState)).map
    (fun p => ({ i with state := p.1 }, p.2))

/-- Construction of a hook instance: `useRef(on: initialOn)` captures the
initial state once and `useReducer` starts from it. -/
def mkInstance (initialOn : Bool) (controlledOn : Option Bool)
    (hasOnChange readOnly : Bool) : ToggleInstance :=
  ⟨⟨initialOn, []⟩, some ⟨initialOn, []⟩, controlledOn, hasOnChange, readOnly⟩

/-- Iterated `toggle()` calls, discarding the observer-call logs. -/
def toggleN : Nat → ToggleInstance → Except String ToggleInstance
  | 0, i => Except.ok i
  | n + 1, i =>
    match i.toggle with
    | Except.ok p => toggleN n p.1
    | Except.error e => Except.error e

/-- Condition under which the npm `warning` package logs its message: it
prints exactly when the condition argument is falsy (in development). -/
def warningFires (condition : Bool) : Bool := !condition

/-- First advisory of useControlledSwitchWarning, at one evaluation of its
effect: `warning(not (isControlled and not wasControlled), 'changing an
uncontrolled input to be controlled...')`. -/
def uncontrolledToControlledFires (wasControlled isControlled : Bool) : Bool :=
  warningFires (!(isControlled && !wasControlled))

/-- Second advisory of useControlledSwitchWarning, at one evaluation of its
effect: `warning(not (not isControlled and wasControlled), 'changing a
controlled input to be uncontrolled...')`. -/
def controlledToUncontrolledFires (wasControlled isControlled : Bool) : Bool :=
  warningFires (!(!isControlled && wasControlled))

/-- useReadOnlyWarning, at one evaluation of its effect: the advisory the
source passes to `warning` is the condition `isControlled and not
hasOnChange and not readOnly` itself (with `isControlled = controlPropValue
!= null`, `hasOnChange = !!onChange`), so per the warning package it fires
when that condition is falsy. -/
def useReadOnlyWarningFires (controlPropValue : Option Bool)
    (hasOnChange readOnly : Bool) : Bool :=
  warningFires (controlPropValue.isSome && !hasOnChange && !readOnly)

/-- Count of firings of an advisory over a sequence of renders.  The effect
of useControlledSwitchWarning has deps `[wasControlled, isControlled]`;
`wasControlled` (a ref captured at mount) never changes, so the effect runs
after the first render and after every render whose `isControlled` differs
from the previous render's.  `fires` gives the advisory's verdict at the
current `isControlled`; `prev` is the previous render's `isControlled`
(`none` before the first render). -/
def effectFireCount (fires : Bool → Bool) :
    Option Bool → List Bool → Nat
  | _, [] => 0
  | prev, c :: rest =>
    let runs :=
      match prev with
      | none => true
      | some p => decide (p ≠ c)
    (if runs && fires c then 1 else 0) + effectFireCount fires (some c) rest

/-- useControlledSwitchWarning over a whole instance lifetime: the list is
the per-render `isControlled` value (`controlledPropValue != null`);
`wasControlled` is captured from the first render.  Returns how often each
of the two mode-change advisories fires. -/
def useControlledSwitchWarningCounts (obs : List Bool) : Nat × Nat :=
  match obs with
  | [] => (0, 0)
  | wasControlled :: _ =>
    (effectFireCount (uncontrolledToControlledFires wasControlled) none obs,
     effectFireCount (controlledToUncontrolledFires wasControlled) none obs)

/-- The values the hook computes and returns at one render, exercised on
both intents: the reported `on`, and for each of `toggle()`/`reset()` the
committed internal state and the observer invocations. -/
structure RenderCoreValues where
  reported : Except String Bool
  toggleOutcome :
    Except String (Option ToggleState × List (Option ToggleState × ToggleAction))
  resetOutcome :
    Except String (Option ToggleState × List (Option ToggleState × ToggleAction))

/-- Core (non-diagnostic) values of one render of useToggle. -/
def renderCoreValues (i : ToggleInstance) : RenderCoreValues :=
  ⟨i.reportedOn,
   dispatchWithOnChange toggleReducer i toggleAction,
   dispatchWithOnChange toggleReducer i (resetAction i.initialState)⟩

/-- The advisory diagnostics of one render: the two hooks run only when
`NODE_ENV != 'production'` (`enabled`); each emits its warning text when
its firing condition holds. -/
def renderDiagnostics (enabled : Bool) (wasControlled : Bool)
    (i : ToggleInstance) : List String :=
  if enabled then
    (if uncontrolledToControlledFires wasControlled i.onIsControlled then
      ["A component is changing an uncontrolled input to be controlled."] else []) ++
    (if controlledToUncontrolledFires wasControlled i.onIsControlled then
      ["A component is changing a controlled input to be uncontrolled."] else []) ++
    (if useReadOnlyWarningFires i.controlledOn i.hasOnChange i.readOnly then
      ["You provided an on prop to a form field without an onChange handler."] else [])
  else []

/-- One render of useToggle: the core values paired with the diagnostics. -/
def useToggleRender (diagnosticsEnabled wasControlled : Bool)
    (i : ToggleInstance) : RenderCoreValues × List String :=
  (renderCoreValues i, renderDiagnostics diagnosticsEnabled wasControlled i)

deriving instance DecidableEq for Except

/-- Helper: binding after a failed `Except` computation propagates the
error. -/
@[simp]
theorem error_bind {ε α β : Type} (e : ε) (f : α → Except ε β) :
    (Except.error e : Except ε α) >>= f = Except.error e := rfl

/-- Helper: binding after a successful `Except` computation applies the
continuation. -/
@[simp]
theorem ok_bind {ε α β : Type} (a : α) (f : α → Except ε β) :
    (Except.ok a : Except ε α) >>= f = f a := rfl

/-- Helper: one `toggle()` call in self-owned mode commits the negated flag
(with all other fields of the state discarded, as the reducer's toggle
branch rebuilds the object from scratch) and, when an observer is
registered, reports exactly that suggestion. -/
theorem toggle_uncontrolled_step (init s : ToggleState) (hoc ro : Bool) :
    (ToggleInstance.mk init (some s) none hoc ro).toggle
      = Except.ok (ToggleInstance.mk init (some ⟨!s.«on», []⟩) none hoc ro,
          if hoc then [(some ⟨!s.«on», []⟩, toggleAction)] else []) := by
  cases hoc <;> rfl

/-- Helper: one `reset()` call in self-owned mode commits the captured
initial state verbatim and, when an observer is registered, reports it. -/
theorem reset_uncontrolled_step (init s : ToggleState) (hoc ro : Bool) :
    (ToggleInstance.mk init (some s) none hoc ro).reset
      = Except.ok (ToggleInstance.mk init (some init) none hoc ro,
          if hoc then [(some init, resetAction init)] else []) := by
  cases hoc <;> rfl

/-- C1: the source's missing-handler advisory is inverted.  The `warning`
call in useReadOnlyWarning passes the condition `isControlled and not
hasOnChange and not readOnly` unnegated, and the warning package logs when
its condition is falsy; so with an external value and a registered observer
(not read-only) the advisory does fire, while in the spec's case — external
value, no observer, not read-only — it stays silent. -/
theorem useReadOnlyWarning_fires_inverted :
    useReadOnlyWarningFires (some true) true false = true ∧
    useReadOnlyWarningFires (some true) false false = false := by
  decide

/-- C2 counterexample: on a state carrying a field besides `on`, the toggle
branch returns an object containing only the negated `on`, so the other
field is dropped rather than left unchanged. -/
theorem toggleReducer_toggle_drops_fields_cex :
    toggleReducer (some ⟨false, [("count", 3)]⟩) toggleAction
        = Except.ok (some ⟨true, []⟩) ∧
    ¬ toggleReducer (some ⟨false, [("count", 3)]⟩) toggleAction
        = Except.ok (some ⟨true, [("count", 3)]⟩) := by
  decide

/-- C2 (amended): applying the transition function with a toggle intent
negates `on` and returns a state containing only the `on` flag; every other
field of the state is discarded (for the states the hook itself constructs,
which carry no other fields, this coincides with leaving them unchanged). -/
theorem toggleReducer_toggle_negates_on (s : ToggleState) :
    toggleReducer (some s) toggleAction = Except.ok (some ⟨!s.«on», []⟩) := by
  rfl

/-- C7: for every intent kind outside the closed set of toggle and reset,
the transition function fails immediately with the unsupported-type error,
and a dispatch of such an action in self-owned mode propagates the error,
producing no new state. -/
theorem toggleReducer_unsupported (s : ToggleState) (a : ToggleAction)
    (h1 : a.type ≠ actionTypes.toggle) (h2 : a.type ≠ actionTypes.reset) :
    toggleReducer (some s) a = Except.error ("Unsupported type: " ++ a.type) ∧
    ∀ i : ToggleInstance, i.controlledOn = none → i.state = some s →
      dispatchWithOnChange toggleReducer i a
        = Except.error ("Unsupported type: " ++ a.type) := by
  constructor
  · simp [toggleReducer, h1, h2]
  · intro i hc hs
    simp [dispatchWithOnChange, ToggleInstance.onIsControlled, hc, hs,
      toggleReducer, h1, h2, Except.bind]

/-- C7 witness: the concrete unsupported intent kind "bogus" on a concrete
state and instance. -/
theorem toggleReducer_unsupported_witness :
    toggleReducer (some ⟨false, []⟩) ⟨"bogus", none⟩
        = Except.error ("Unsupported type: " ++ "bogus") ∧
    dispatchWithOnChange toggleReducer (mkInstance false none true false)
        ⟨"bogus", none⟩
        = Except.error ("Unsupported type: " ++ "bogus") := by
  have h := toggleReducer_unsupported ⟨false, []⟩ ⟨"bogus", none⟩
    (by decide) (by decide)
  exact ⟨h.1, h.2 (mkInstance false none true false) rfl rfl⟩

/-- C9: the core values of a render — the reported `on`, the committed next
state, and the observer arguments, for both intents — do not depend on the
readOnly flag nor on whether the advisory diagnostics run; two renders
differing only in those produce identical core values. -/
theorem diagnostics_no_influence (i : ToggleInstance)
    (d1 d2 w1 w2 r1 r2 : Bool) :
    (useToggleRender d1 w1 { i with readOnly := r1 }).1
      = (useToggleRender d2 w2 { i with readOnly := r2 }).1 := by
  cases i
  rfl

/-- C3: with an observer registered, each intent issued via `toggle()` or
`reset()` produces exactly one observer invocation, whose arguments are the
next state computed by the transition function (on the internal state
merged with the reported `on`) and the originating intent — in self-owned
mode (`con = none`) as well as in externally-owned mode (`con = some _`). -/
theorem onChange_called_once_per_intent (init s : ToggleState)
    (con : Option Bool) (ro : Bool) :
    ∃ b : Bool,
      (ToggleInstance.mk init (some s) con true ro).reportedOn = Except.ok b ∧
      (∃ sugT, toggleReducer (some (spreadOn (some s) b)) toggleAction
            = Except.ok sugT ∧
        ∃ j, (ToggleInstance.mk init (some s) con true ro).toggle
            = Except.ok (j, [(sugT, toggleAction)])) ∧
      (∃ sugR, toggleReducer (some (spreadOn (some s) b)) (resetAction init)
            = Except.ok sugR ∧
        ∃ j, (ToggleInstance.mk init (some s) con true ro).reset
            = Except.ok (j, [(sugR, resetAction init)])) := by
  cases con with
  | none => exact ⟨s.«on», rfl, ⟨_, rfl, _, rfl⟩, ⟨_, rfl, _, rfl⟩⟩
  | some b => exact ⟨b, rfl, ⟨_, rfl, _, rfl⟩, ⟨_, rfl, _, rfl⟩⟩

/-- C6: in externally-owned mode, `toggle()` and `reset()` leave the whole
instance — in particular the internal standby state — unchanged (no internal
commit), and the reported `on` equals the externally supplied value, whatever
the internal state holds. -/
theorem controlled_no_internal_commit (init : ToggleState)
    (st : Option ToggleState) (b hoc ro : Bool) :
    (ToggleInstance.mk init st (some b) hoc ro).reportedOn = Except.ok b ∧
    (∃ cs, (ToggleInstance.mk init st (some b) hoc ro).toggle
        = Except.ok (ToggleInstance.mk init st (some b) hoc ro, cs)) ∧
    (∃ cs, (ToggleInstance.mk init st (some b) hoc ro).reset
        = Except.ok (ToggleInstance.mk init st (some b) hoc ro, cs)) := by
  cases hoc <;> exact ⟨rfl, ⟨_, rfl⟩, ⟨_, rfl⟩⟩

/-- C10: the suggestion passed to the observer is the transition function
applied to the internal state merged with the reported `on` (the spread
`...state, on`); in externally-owned mode the reported `on` is the
external value, so the suggested toggle is its negation — independent of the
internal standby `on`, which is free here and may differ. -/
theorem onChange_suggestion_from_reported_on (init s : ToggleState)
    (b ro : Bool) :
    (ToggleInstance.mk init (some s) (some b) true ro).reportedOn
        = Except.ok b ∧
    spreadOn (some s) b = ⟨b, s.extra⟩ ∧
    toggleReducer (some (spreadOn (some s) b)) toggleAction
        = Except.ok (some ⟨!b, []⟩) ∧
    (∃ j, (ToggleInstance.mk init (some s) (some b) true ro).toggle
        = Except.ok (j, [(some ⟨!b, []⟩, toggleAction)])) ∧
    (∃ j, (ToggleInstance.mk init (some s) (some b) true ro).reset
        = Except.ok (j, [(some init, resetAction init)])) := by
  exact ⟨rfl, rfl, rfl, ⟨_, rfl⟩, ⟨_, rfl⟩⟩

/-- Helper: parity of a successor, on the decidable `is odd` Boolean. -/
theorem decide_succ_mod_two (n : Nat) :
    decide ((n + 1) % 2 = 1) = !decide (n % 2 = 1) := by
  rcases Nat.mod_two_eq_zero_or_one n with h | h <;> simp [Nat.add_mod, h]

/-- Helper: N iterated toggles in self-owned mode succeed and leave the
instance unchanged except for the internal flag, which becomes the initial
flag xored with the parity of N. -/
theorem toggleN_uncontrolled (N : Nat) :
    ∀ (init : ToggleState) (b hoc ro : Bool),
      toggleN N (ToggleInstance.mk init (some ⟨b, []⟩) none hoc ro)
        = Except.ok (ToggleInstance.mk init
            (some ⟨Bool.xor b (decide (N % 2 = 1)), []⟩) none hoc ro) := by
  induction N with
  | zero => intro init b hoc ro; simp [toggleN]
  | succ n ih =>
    intro init b hoc ro
    have hstep := toggle_uncontrolled_step init ⟨b, []⟩ hoc ro
    have hx : Bool.xor (!b) (decide (n % 2 = 1))
        = Bool.xor b (decide ((n + 1) % 2 = 1)) := by
      rw [decide_succ_mod_two]
      cases b <;> cases decide (n % 2 = 1) <;> rfl
    simp [toggleN, hstep, ih, hx]

/-- C4: starting from `initialState = false` in self-owned mode, after N
toggles the internal and reported flag equals the parity of N (`N` odd);
in particular the observed sequence after one, two and three `toggle()`
calls is true, false, true. -/
theorem toggle_parity (N : Nat) (hoc ro : Bool) :
    toggleN N (mkInstance false none hoc ro)
      = Except.ok (ToggleInstance.mk ⟨false, []⟩
          (some ⟨decide (N % 2 = 1), []⟩) none hoc ro) ∧
    ((toggleN 1 (mkInstance false none hoc ro)).bind
        (fun j => j.reportedOn) = Except.ok true ∧
     (toggleN 2 (mkInstance false none hoc ro)).bind
        (fun j => j.reportedOn) = Except.ok false ∧
     (toggleN 3 (mkInstance false none hoc ro)).bind
        (fun j => j.reportedOn) = Except.ok true) := by
  refine ⟨?_, ?_, ?_, ?_⟩
  · have h := toggleN_uncontrolled N ⟨false, []⟩ false hoc ro
    simpa [mkInstance] using h
  all_goals
    simp [mkInstance, toggleN_uncontrolled, Except.bind, ToggleInstance.reportedOn]

/-- C5: after any number of intervening toggles in self-owned mode, a
`reset()` restores the internal state to exactly the initial state captured
at construction, which is reused verbatim. -/
theorem reset_restores_initial (N : Nat) (initialOn hoc ro : Bool) :
    (toggleN N (mkInstance initialOn none hoc ro)).map
        (fun j => j.initialState) = Except.ok ⟨initialOn, []⟩ ∧
    (toggleN N (mkInstance initialOn none hoc ro)).bind
        (fun j => (j.reset).map (fun p => p.1.state))
      = Except.ok (some ⟨initialOn, []⟩) := by
  have h := toggleN_uncontrolled N ⟨initialOn, []⟩ initialOn hoc ro
  have hr := reset_uncontrolled_step ⟨initialOn, []⟩
    ⟨Bool.xor initialOn (decide (N % 2 = 1)), []⟩ hoc ro
  constructor
  · simp [mkInstance, h, Except.map]
  · simp [mkInstance, h, Except.bind, hr, Except.map]

/-- Helper: while `isControlled` keeps its previous value, the effect does
not re-run, so a constant block contributes no firings. -/
theorem effectFireCount_replicate (f : Bool → Bool) (c : Bool) (n : Nat)
    (rest : List Bool) :
    effectFireCount f (some c) (List.replicate n c ++ rest)
      = effectFireCount f (some c) rest := by
  induction n with
  | zero => rfl
  | succ m ih => simp [List.replicate_succ, effectFireCount, ih]

/-- Helper: an advisory whose verdict is false at every observation never
fires. -/
theorem effectFireCount_never (f : Bool → Bool) (hf : ∀ x, f x = false)
    (p : Option Bool) (l : List Bool) :
    effectFireCount f p l = 0 := by
  induction l generalizing p with
  | nil => rfl
  | cons c rest ih => simp [effectFireCount, hf, ih]

/-- C8: over a lifetime whose mode changes exactly once from self-owned to
externally-owned, the uncontrolled-to-controlled advisory fires exactly
once and the other never; symmetrically for the reverse transition; over a
lifetime of constant mode neither advisory ever fires. -/
theorem controlledSwitchWarning_mode_transitions (a b : Nat) :
    useControlledSwitchWarningCounts
        (List.replicate (a + 1) false ++ List.replicate (b + 1) true)
      = (1, 0) ∧
    useControlledSwitchWarningCounts
        (List.replicate (a + 1) true ++ List.replicate (b + 1) false)
      = (0, 1) ∧
    ∀ (n : Nat) (c : Bool),
      useControlledSwitchWarningCounts (List.replicate n c) = (0, 0) := by
  refine ⟨?_, ?_, ?_⟩
  · have h2 : ∀ x, controlledToUncontrolledFires false x = false := by
      intro x; simp [controlledToUncontrolledFires, warningFires]
    simp only [List.replicate_succ, List.cons_append,
      useControlledSwitchWarningCounts, Prod.mk.injEq]
    constructor
    · simp only [effectFireCount]
      rw [show (List.replicate a false ++
            true :: List.replicate b true : List Bool)
          = List.replicate a false ++
            (true :: List.replicate b true) from rfl,
        effectFireCount_replicate]
      simp only [effectFireCount]
      have := effectFireCount_replicate
        (uncontrolledToControlledFires false) true b []
      simp only [List.append_nil] at this
      simp [this, uncontrolledToControlledFires, warningFires,
        effectFireCount]
    · exact effectFireCount_never _ h2 _ _
  · have h1 : ∀ x, uncontrolledToControlledFires true x = false := by
      intro x; simp [uncontrolledToControlledFires, warningFires]
    simp only [List.replicate_succ, List.cons_append,
      useControlledSwitchWarningCounts, Prod.mk.injEq]
    constructor
    · exact effectFireCount_never _ h1 _ _
    · simp only [effectFireCount]
      rw [show (List.replicate a true ++
            false :: List.replicate b false : List Bool)
          = List.replicate a true ++
            (false :: List.replicate b false) from rfl,
        effectFireCount_replicate]
      simp only [effectFireCount]
      have := effectFireCount_replicate
        (controlledToUncontrolledFires true) false b []
      simp only [List.append_nil] at this
      simp [this, controlledToUncontrolledFires, warningFires,
        effectFireCount]
  · intro n c
    match n with
    | 0 => rfl
    | Nat.succ m =>
      have hskip := effectFireCount_replicate
        (uncontrolledToControlledFires c) c m []
      have hskip2 := effectFireCount_replicate
        (controlledToUncontrolledFires c) c m []
      simp only [List.append_nil] at hskip hskip2
      simp [List.replicate_succ, useControlledSwitchWarningCounts,
        effectFireCount, hskip, hskip2, uncontrolledToControlledFires,
        controlledToUncontrolledFires, warningFires]
